import Mathlib

/-!
Verification of `reconftw_ai.py` (reconftw_ai_gemini).

Shallow embedding of the pipeline: `read_files` (Ingestor),
`process_category` (AnalysisClient), `save_results` (ReportWriter) and
`analyze_reconftw_results` (Orchestrator).

Modelling conventions, mirroring the Python source:
* Python strings are Lean `String`; `s.strip()` is `pyStrip`;
  `needle in hay` is `strContains hay needle`.
* The external generation service (`client.models.generate_content`) is a
  parameter `GenService`: a function from (model, prompt) to either the
  response text or the textual reason of a raised exception.
* A raised Python exception is `Except.error reason`; `process_category`
  returns additionally the number of service calls it performed (0 or 1).
* The filesystem seen by one category is a `DirState`: whether
  `os.path.isdir(category_dir)` holds, and the `glob` enumeration of the
  regular files underneath, each carrying its path relative to the results
  directory and either its content or the reason reading it failed.
* Thread-pool nondeterminism: the two `as_completed` loops fill Python
  dicts in completion order, so the orchestrator takes the two completion
  orders `order1`, `order2` (each a permutation of the four distinct
  `CATEGORIES` in any actual run) as parameters.
* A prompt template (a Python format string) is pre-parsed into literal
  parts and named substitution slots; `str.format(data=...)` fills the
  slots named `data` and raises (`Except.error`) on any other slot.
-/

/-- Python whitespace test used by `str.strip` (restricted to the ASCII
whitespace that actually occurs in the processed data). -/
def pyWS (c : Char) : Bool := c.isWhitespace

/-- Strip whitespace from both ends of a character list (Python `str.strip`). -/
def stripList (l : List Char) : List Char :=
  ((l.dropWhile pyWS).reverse.dropWhile pyWS).reverse

/-- Python `str.strip()`. -/
def pyStrip (s : String) : String := ⟨stripList s.data⟩

/-- Occurrence of `needle` as a contiguous substring of a character list. -/
def subOcc (needle : List Char) : List Char → Bool
  | [] => needle.isEmpty
  | c :: t => needle.isPrefixOf (c :: t) || subOcc needle t

/-- Python `needle in hay` for strings. -/
def strContains (hay needle : String) : Bool := subOcc needle.data hay.data

/-- Python `os.path.join` restricted to the slash-separated paths the tool
builds (empty or slash-terminated left operand handled as in CPython). -/
def joinPath (a b : String) : String :=
  if a = "" then b else if a.data.getLastD ' ' == '/' then a ++ b else a ++ "/" ++ b

/-- The fixed category list of the source (`CATEGORIES`). -/
def CATEGORIES : List String := ["osint", "subdomains", "hosts", "webs"]

instance {α β : Type} [DecidableEq α] [DecidableEq β] : DecidableEq (Except α β) := fun a b =>
  match a, b with
  | .ok x, .ok y =>
      if h : x = y then isTrue (by rw [h]) else isFalse (fun hc => h (Except.ok.inj hc))
  | .error x, .error y =>
      if h : x = y then isTrue (by rw [h]) else isFalse (fun hc => h (Except.error.inj hc))
  | .ok _, .error _ => isFalse (fun hc => Except.noConfusion hc)
  | .error _, .ok _ => isFalse (fun hc => Except.noConfusion hc)

/-- Python `str.upper()` restricted to the ASCII identifiers it is applied
to: uppercase each character. -/
def pyUpper (s : String) : String := ⟨s.data.map Char.toUpper⟩

/-- One regular file found by the `glob` walk of a category directory:
its path relative to the results directory (`os.path.relpath`) and either
its text content or the reason (`str(e)`) reading it raised. -/
structure FileEntry where
  rel : String
  content : Except String String
deriving DecidableEq

/-- The filesystem state of one category directory: whether
`os.path.isdir` holds and the `glob("**/*", recursive=True)` enumeration
of regular files underneath, in enumeration order. -/
structure DirState where
  isdir : Bool
  files : List FileEntry
deriving DecidableEq

/-- The block `read_files` appends to `combined_data` for one file. -/
def fileBlock (f : FileEntry) : String :=
  match f.content with
  | .ok c => "--- " ++ f.rel ++ " ---\n" ++ pyStrip c ++ "\n"
  | .error e => "[Error] Failed to read " ++ f.rel ++ ": " ++ e ++ "\n"

/-- Embedding of `read_files(category, results_dir)` over a `DirState`. -/
def read_files (category results_dir : String) (d : DirState) : String :=
  let category_dir := joinPath results_dir category
  if d.isdir = false then
    "[Error] Directory " ++ category_dir ++ " does not exist."
  else
    let combined := d.files.foldl (fun acc f => acc ++ fileBlock f) ""
    if combined = "" then
      "[Info] No files found in " ++ category_dir ++ "."
    else
      pyStrip combined

/-- One part of a pre-parsed Python format string: a literal piece or a
named substitution slot (`TPart.slot "data"` stands for the occurrence of
the data placeholder in the template text). -/
inductive TPart where
  | lit (s : String)
  | slot (name : String)
deriving DecidableEq

/-- A prompt template as stored in the prompts catalog. -/
abbrev Template := List TPart

/-- The built-in fallback template of `process_category` (the literal
instruction text followed by the data placeholder). -/
def defaultTemplate : Template :=
  [.lit "Analyze this reconnaissance data and highlight high-risk findings:\n",
   .slot "data"]

/-- Python `template.format(data=data)`: fills every slot named `data`,
raises `KeyError` (modelled as `Except.error`) on any other slot name. -/
def formatTemplate : Template → String → Except String String
  | [], _ => .ok ""
  | .lit s :: r, d => (formatTemplate r d).map (fun t => s ++ t)
  | .slot n :: r, d =>
      if n = "data" then (formatTemplate r d).map (fun t => d ++ t)
      else .error ("KeyError: " ++ n)

/-- The prompts catalog: report type to (category to template), as the
parsed JSON dict of `load_prompts`. -/
abbrev Prompts := List (String × List (String × Template))

/-- Python `base_prompts.get(report_type, \x7b\x7d).get(category, default)`. -/
def resolveTemplate (bp : Prompts) (report_type category : String) : Template :=
  ((((bp.lookup report_type).getD [])).lookup category).getD defaultTemplate

/-- A template is well formed when its only slots are the data slot, so
that `formatTemplate` cannot raise on it. -/
def wfTemplate : Template → Bool
  | [] => true
  | .lit _ :: r => wfTemplate r
  | .slot n :: r => (n == "data") && wfTemplate r

/-- The external generation service: (model name, prompt) to response text
or the textual reason of the exception the call raised. -/
structure GenService where
  generate : String → String → Except String String

/-- Embedding of `process_category`: result (or propagated exception) and
the number of generation-service calls performed. -/
def process_category (svc : GenService) (category data model_name report_type : String)
    (base_prompts : Prompts) : Except String String × Nat :=
  if (data == "") || strContains data "[Error]" then
    (.ok ("[Error] No valid data available for " ++ category ++ "."), 0)
  else
    match formatTemplate (resolveTemplate base_prompts report_type category) data with
    | .error e => (.error e, 0)
    | .ok prompt =>
        match svc.generate model_name prompt with
        | .ok t => (.ok t, 1)
        | .error e =>
            (.ok ("[Error] Failed to process " ++ category ++ " with Gemini: " ++ e), 1)

/-- Phase 1 of the orchestrator: the dict `raw_data_per_category`, keyed
in completion order `order1`. -/
def phase1 (results_dir : String) (fs : String → DirState) (order1 : List String) :
    List (String × String) :=
  order1.map (fun cat => (cat, read_files cat results_dir (fs cat)))

/-- Phase 2 of the orchestrator: the dict `results`, filled in completion
order `order2`; a `KeyError` on the raw dict or an exception out of
`process_category` propagates (`future.result()` re-raises). -/
def phase2 (svc : GenService) (raw : List (String × String))
    (model_name report_type : String) (bp : Prompts) :
    List String → Except String (List (String × String))
  | [] => .ok []
  | cat :: rest =>
      match raw.lookup cat with
      | none => .error ("KeyError: " ++ cat)
      | some d =>
          match (process_category svc cat d model_name report_type bp).fst with
          | .error exc => .error exc
          | .ok v => (phase2 svc raw model_name report_type bp rest).map
                       (fun l => (cat, v) :: l)

/-- The combined text handed to the synthesis (`overview`) call: every
category's raw ingested data labeled by its uppercased name, joined by a
blank line, in the phase-1 dict's insertion order `order1`. -/
def overview_input (results_dir : String) (fs : String → DirState)
    (order1 : List String) : String :=
  "\n\n".intercalate
    (order1.map (fun cat => pyUpper cat ++ ":\n" ++ read_files cat results_dir (fs cat)))

/-- The synthesis input as the specification words it: the raw data of the
four categories concatenated in the fixed declared category order. -/
def overview_input_spec (results_dir : String) (fs : String → DirState) : String :=
  "\n\n".intercalate
    (CATEGORIES.map (fun cat => pyUpper cat ++ ":\n" ++ read_files cat results_dir (fs cat)))

/-- Embedding of `analyze_reconftw_results`: the report as an association
list in dict insertion order, or the propagated exception. -/
def analyze_reconftw_results (svc : GenService) (results_dir model_name report_type : String)
    (bp : Prompts) (fs : String → DirState) (order1 order2 : List String) :
    Except String (List (String × String)) :=
  let raw := phase1 results_dir fs order1
  match phase2 svc raw model_name report_type bp order2 with
  | .error exc => .error exc
  | .ok results =>
      let all_data := "\n\n".intercalate (raw.map (fun kv => pyUpper kv.fst ++ ":\n" ++ kv.snd))
      match (process_category svc "overview" all_data model_name report_type bp).fst with
      | .error exc => .error exc
      | .ok v => .ok (results ++ [("overview", v)])

/-- Metadata lines of the markdown report header. -/
def mdMeta (model_name report_type timestamp : String) : String :=
  "- **Model Used**: `" ++ model_name ++ "`\n- **Report Type**: `" ++ report_type ++
  "`\n- **Date**: `" ++ timestamp ++ "`\n\n"

/-- Markdown report header written by `save_results`. -/
def mdHeader (model_name report_type timestamp : String) : String :=
  "# ReconFTW-AI Analysis (Gemini)\n\n" ++ mdMeta model_name report_type timestamp

/-- Markdown sections: one `##` block per report entry, in list order,
labeled by the uppercased section name. -/
def mdSections (results : List (String × String)) : String :=
  String.join (results.map (fun kv => "## " ++ pyUpper kv.fst ++ "\n\n" ++ kv.snd ++ "\n\n"))

/-- Plain-text report header written by `save_results`. -/
def txtHeader (model_name report_type timestamp : String) : String :=
  "ReconFTW-AI Analysis\nModel: " ++ model_name ++ "\nReport Type: " ++ report_type ++
  "\nDate: " ++ timestamp ++ "\n" ++ (⟨List.replicate 60 '='⟩ : String) ++ "\n\n"

/-- Plain-text sections: one `===` block per report entry, in list order,
labeled by the uppercased section name. -/
def txtSections (results : List (String × String)) : String :=
  String.join (results.map (fun kv => "=== " ++ pyUpper kv.fst ++ " ===\n" ++ kv.snd ++ "\n\n"))

/-- Embedding of `save_results`: the written file as (path, body).
The run timestamp `datetime.now().strftime` is a parameter. -/
def save_results (results : List (String × String))
    (output_dir model_name output_format report_type timestamp : String) : String × String :=
  let extension := if output_format = "md" then "md" else "txt"
  let output_file :=
    joinPath output_dir
      ("reconftw_analysis_" ++ report_type ++ "_" ++ timestamp ++ "." ++ extension)
  let body :=
    if output_format = "md" then
      mdHeader model_name report_type timestamp ++ mdSections results
    else
      txtHeader model_name report_type timestamp ++ txtSections results
  (output_file, body)

/-- Shape of the output of `strftime("%Y%m%d_%H%M%S")`: eight digits, an
underscore, six digits. -/
def validTimestamp (ts : String) : Bool :=
  (ts.data.length == 15) && (ts.data.take 8).all Char.isDigit &&
  ((ts.data.drop 8).take 1 == ['_']) && ((ts.data.drop 9).all Char.isDigit)

/-- The filename pattern the specification claims: basename equal to
`reconftw_analysis_brief_` ++ a 14 digit timestamp ++ `.md`. -/
def claimedNamePattern (base : String) : Bool :=
  (base.data.length == 41) && (base.data.take 24 == "reconftw_analysis_brief_".data) &&
  ((base.data.drop 24).take 14).all Char.isDigit &&
  ((base.data.drop 38) == ".md".data)

/-- Basename of a slash-separated path: the suffix after the last slash. -/
def basename (s : String) : String :=
  ⟨(s.data.reverse.takeWhile (fun c => c != '/')).reverse⟩

/-! ### String-level helper lemmas -/

lemma strData_append (s1 s2 : String) : (s1 ++ s2).data = s1.data ++ s2.data := rfl

lemma strExt {a b : String} (h : a.data = b.data) : a = b := by
  cases a; cases b; cases h; rfl

lemma strAppend_assoc (a b c : String) : a ++ b ++ c = a ++ (b ++ c) :=
  strExt (by simp [strData_append])

lemma strEmpty_iff {a : String} : a = "" ↔ a.data = [] := by
  constructor
  · intro h; rw [h]
  · intro h; exact strExt (by simp [h])

lemma strAppend_empty (a : String) : a ++ "" = a :=
  strExt (by simp [strData_append])

lemma strEmpty_append (a : String) : "" ++ a = a :=
  strExt (by simp [strData_append])

lemma headI_append {l₁ l₂ : List Char} (h : l₁ ≠ []) : (l₁ ++ l₂).headI = l₁.headI := by
  cases l₁ with
  | nil => exact absurd rfl h
  | cons x xs => rfl

/-! ### Claims about the AnalysisClient precondition check (C1, C10) -/

/-- C1 (amended): for every category and every data string that is empty or
contains the substring `[Error]` (which covers the directory-absent sentinel
and inline failed-read blocks, but not the `[Info] No files found` sentinel:
that one is forwarded to the service), `process_category` returns the
`No valid data available` error result and performs zero generation-service
calls. -/
theorem c1_short_circuit (svc : GenService) (category data model_name report_type : String)
    (bp : Prompts) (h : data = "" ∨ strContains data "[Error]" = true) :
    process_category svc category data model_name report_type bp
      = (.ok ("[Error] No valid data available for " ++ category ++ "."), 0) := by
  unfold process_category
  rcases h with h | h
  · subst h; simp
  · simp [h]

/-- Witness for `c1_short_circuit` at the directory-absent sentinel. -/
theorem c1_short_circuit_witness :
    ("[Error] Directory r/osint does not exist." = "" ∨
      strContains "[Error] Directory r/osint does not exist." "[Error]" = true) ∧
    process_category ⟨fun _ _ => .ok "A"⟩ "osint"
        "[Error] Directory r/osint does not exist." "m" "executive" []
      = (.ok "[Error] No valid data available for osint.", 0) :=
  ⟨Or.inr (by decide),
   c1_short_circuit ⟨fun _ _ => .ok "A"⟩ "osint" "[Error] Directory r/osint does not exist."
     "m" "executive" [] (Or.inr (by decide))⟩

/-- C1 counterexample: the `[Info] No files found` sentinel produced by
`read_files` for an empty category directory does not trigger the
precondition check: `process_category` invokes the generation service
(one call) and returns the service's response, not an error result. -/
theorem c1_counterexample :
    read_files "osint" "r" ⟨true, []⟩ = "[Info] No files found in r/osint." ∧
    process_category ⟨fun _ _ => .ok "A"⟩ "osint" "[Info] No files found in r/osint."
        "m" "executive" [] = (.ok "A", 1) := by
  decide

/-- C10: whenever the substring `[Error]` occurs anywhere in the data —
also inside the content of a successfully read file, or in one inline
failed-read block amid otherwise valid data — `process_category` returns
the `No valid data available` sentinel for the whole category with zero
generation-service calls. -/
theorem c10_error_substring_short_circuit (svc : GenService)
    (category data model_name report_type : String) (bp : Prompts)
    (h : strContains data "[Error]" = true) :
    process_category svc category data model_name report_type bp
      = (.ok ("[Error] No valid data available for " ++ category ++ "."), 0) := by
  unfold process_category
  simp [h]

/-- Witness for `c10_error_substring_short_circuit`: one failed-read block
amid otherwise valid file data discards the whole category. -/
theorem c10_error_substring_short_circuit_witness :
    strContains "--- osint/a.txt ---\ngood data\n[Error] Failed to read osint/b.txt: denied"
        "[Error]" = true ∧
    process_category ⟨fun _ _ => .ok "A"⟩ "osint"
        "--- osint/a.txt ---\ngood data\n[Error] Failed to read osint/b.txt: denied"
        "m" "executive" []
      = (.ok "[Error] No valid data available for osint.", 0) :=
  ⟨by decide,
   c10_error_substring_short_circuit ⟨fun _ _ => .ok "A"⟩ "osint"
     "--- osint/a.txt ---\ngood data\n[Error] Failed to read osint/b.txt: denied"
     "m" "executive" [] (by decide)⟩

/-! ### Claims about AnalysisClient failure handling (C2) -/

lemma wf_formatTemplate_ok (t : Template) (d : String) (h : wfTemplate t = true) :
    ∃ p, formatTemplate t d = .ok p := by
  induction t with
  | nil => exact ⟨"", rfl⟩
  | cons x r ih =>
      cases x with
      | lit s =>
          obtain ⟨p, hp⟩ := ih (by simpa [wfTemplate] using h)
          exact ⟨s ++ p, by simp [formatTemplate, hp, Except.map]⟩
      | slot n =>
          simp only [wfTemplate, Bool.and_eq_true, beq_iff_eq] at h
          obtain ⟨p, hp⟩ := ih h.2
          exact ⟨d ++ p, by simp [formatTemplate, h.1, hp, Except.map]⟩

/-- C2 counterexample: a template whose substitution slot is not the data
slot makes `prompt_template.format` raise outside the try block, so
`process_category` propagates the exception (`Except.error`) instead of
returning an error-sentinel string. -/
theorem c2_counterexample :
    process_category ⟨fun _ _ => .ok "A"⟩ "osint" "somedata" "m" "executive"
        [("executive", [("osint", [TPart.lit "Use ", TPart.slot "foo"])])]
      = (.error "KeyError: foo", 0) := by
  decide

/-- C2 (amended): when the data passes the precondition check and the
resolved prompt template is well formed (its only slots are the data slot),
`process_category` never propagates an exception: the prompt substitution
succeeds and a generation-service failure with reason `e` is returned as
the `Failed to process` sentinel embedding the category name and `e`.
Template-substitution failures (ill-formed templates) are outside the try
block in the source and do propagate (see the counterexample). -/
theorem c2_service_failure_sentinel (svc : GenService)
    (category data model_name report_type : String) (bp : Prompts)
    (hdata : ((data == "") || strContains data "[Error]") = false)
    (hwf : wfTemplate (resolveTemplate bp report_type category) = true) :
    ∃ prompt, formatTemplate (resolveTemplate bp report_type category) data = .ok prompt ∧
      process_category svc category data model_name report_type bp =
        (match svc.generate model_name prompt with
         | .ok t => (.ok t, 1)
         | .error e =>
             (.ok ("[Error] Failed to process " ++ category ++ " with Gemini: " ++ e), 1)) := by
  obtain ⟨p, hp⟩ := wf_formatTemplate_ok _ data hwf
  refine ⟨p, hp, ?_⟩
  unfold process_category
  simp [hdata, hp]

/-- Witness for `c2_service_failure_sentinel` at a failing service call. -/
theorem c2_service_failure_sentinel_witness :
    ((("recon data" == "") || strContains "recon data" "[Error]") = false) ∧
    wfTemplate (resolveTemplate [] "executive" "osint") = true ∧
    (∃ prompt, formatTemplate (resolveTemplate [] "executive" "osint") "recon data" = .ok prompt ∧
      process_category ⟨fun _ _ => .error "quota exceeded"⟩ "osint" "recon data" "m" "executive" [] =
        (match (⟨fun _ _ => .error "quota exceeded"⟩ : GenService).generate "m" prompt with
         | .ok t => (.ok t, 1)
         | .error e =>
             (.ok ("[Error] Failed to process osint with Gemini: " ++ e), 1))) :=
  ⟨by decide, by decide,
   c2_service_failure_sentinel ⟨fun _ _ => .error "quota exceeded"⟩ "osint" "recon data"
     "m" "executive" [] (by decide) (by decide)⟩

/-! ### Claims about the Ingestor (C5, C7) -/

/-- C5: when the category directory does not exist, `read_files` returns
the explanatory sentinel containing `does not exist` (it is a total
function, so it cannot raise), and its result does not depend on the file
enumeration at all — the filesystem is not traversed. -/
theorem c5_absent_directory (category results_dir : String) (files : List FileEntry) :
    (∃ a b, read_files category results_dir ⟨false, files⟩ = a ++ "does not exist" ++ b) ∧
    (∀ files', read_files category results_dir ⟨false, files'⟩
        = read_files category results_dir ⟨false, files⟩) := by
  constructor
  · refine ⟨"[Error] Directory " ++ joinPath results_dir category ++ " ", ".", ?_⟩
    have hred : read_files category results_dir ⟨false, files⟩
        = "[Error] Directory " ++ joinPath results_dir category ++ " does not exist." := rfl
    rw [hred]
    have h2 : (" does not exist." : String) = " " ++ "does not exist" ++ "." := by decide
    rw [h2]
    simp [strAppend_assoc]
  · intro files'; rfl

/-- C7 counterexample: two directory states with identical file contents
(the enumerations are permutations of each other) on which `read_files`
produces different bytes — the source applies no sorting to the `glob`
enumeration, so output order follows enumeration order, not the
lexicographic order of relative paths. -/
theorem c7_counterexample :
    ([⟨"osint/a.txt", .ok "alpha"⟩, ⟨"osint/b.txt", .ok "beta"⟩] : List FileEntry).Perm
        [⟨"osint/b.txt", .ok "beta"⟩, ⟨"osint/a.txt", .ok "alpha"⟩] ∧
    read_files "osint" "r" ⟨true, [⟨"osint/a.txt", .ok "alpha"⟩, ⟨"osint/b.txt", .ok "beta"⟩]⟩
      ≠ read_files "osint" "r" ⟨true, [⟨"osint/b.txt", .ok "beta"⟩, ⟨"osint/a.txt", .ok "alpha"⟩]⟩ := by
  decide

/-- C7 (amended): `read_files` is a pure function of the directory state,
so two invocations over the same directory-existence flag and the same
file enumeration (same relative paths, contents and enumeration order)
produce byte-identical output; lexicographic enumeration order is not
enforced by the source (see the counterexample). -/
theorem c7_deterministic (category results_dir : String) (d d' : DirState)
    (h1 : d.isdir = d'.isdir) (h2 : d.files = d'.files) :
    read_files category results_dir d = read_files category results_dir d' := by
  cases d; cases d'
  cases h1; cases h2; rfl

/-- Witness for `c7_deterministic` on a concrete directory state. -/
theorem c7_deterministic_witness :
    (DirState.mk true [⟨"osint/a.txt", .ok "alpha"⟩]).isdir
        = (DirState.mk true [⟨"osint/a.txt", .ok "alpha"⟩]).isdir ∧
    (DirState.mk true [⟨"osint/a.txt", .ok "alpha"⟩]).files
        = (DirState.mk true [⟨"osint/a.txt", .ok "alpha"⟩]).files ∧
    read_files "osint" "r" ⟨true, [⟨"osint/a.txt", .ok "alpha"⟩]⟩
        = read_files "osint" "r" ⟨true, [⟨"osint/a.txt", .ok "alpha"⟩]⟩ :=
  ⟨rfl, rfl,
   c7_deterministic "osint" "r" ⟨true, [⟨"osint/a.txt", .ok "alpha"⟩]⟩
     ⟨true, [⟨"osint/a.txt", .ok "alpha"⟩]⟩ rfl rfl⟩

/-! ### Claims about the ReportWriter (C9) -/

/-- C9 counterexample: for the strftime timestamp shape the source
produces (`%Y%m%d_%H%M%S`), the written markdown filename for report type
`brief` does not match `reconftw_analysis_brief_<14-digit-timestamp>.md`:
the timestamp part is 15 characters (8 digits, an underscore, 6 digits),
not 14 contiguous digits. -/
theorem c9_counterexample :
    validTimestamp "20250101_120000" = true ∧
    basename (save_results [] "out" "m" "md" "brief" "20250101_120000").fst
      = "reconftw_analysis_brief_20250101_120000.md" ∧
    claimedNamePattern (basename (save_results [] "out" "m" "md" "brief" "20250101_120000").fst)
      = false := by
  decide

/-- C9 (amended): for report variant `brief`, format `md` and a timestamp
of the strftime shape the source produces, the written path is
`output_dir/reconftw_analysis_brief_<8-digit-date>_<6-digit-time>.md`
(14 digits and one separating underscore), and the body begins with the
level-1 heading `# ReconFTW-AI Analysis (Gemini)` naming the tool and the
generation-service family (the concrete model id follows in the header
metadata lines). -/
theorem c9_filename_and_heading (results : List (String × String))
    (output_dir model_name ts : String) (hts : validTimestamp ts = true) :
    (save_results results output_dir model_name "md" "brief" ts).fst
      = joinPath output_dir ("reconftw_analysis_brief_" ++ ts ++ ".md") ∧
    (∃ date time, ts = date ++ "_" ++ time ∧
      date.data.length = 8 ∧ date.data.all Char.isDigit = true ∧
      time.data.length = 6 ∧ time.data.all Char.isDigit = true) ∧
    (∃ rest, (save_results results output_dir model_name "md" "brief" ts).snd
      = "# ReconFTW-AI Analysis (Gemini)\n\n" ++ rest) := by
  simp only [validTimestamp, Bool.and_eq_true, beq_iff_eq] at hts
  obtain ⟨⟨⟨hlen, hdig1⟩, hu⟩, hdig2⟩ := hts
  refine ⟨?_, ⟨⟨ts.data.take 8⟩, ⟨ts.data.drop 9⟩, ?_, ?_, hdig1, ?_, hdig2⟩, ?_⟩
  · have h1 : (save_results results output_dir model_name "md" "brief" ts).fst
        = joinPath output_dir ("reconftw_analysis_" ++ "brief" ++ "_" ++ ts ++ "." ++ "md") := rfl
    rw [h1]
    congr 1
    have h2 : ("reconftw_analysis_" ++ "brief" ++ "_" : String) = "reconftw_analysis_brief_" := by
      decide
    have h3 : ("." ++ "md" : String) = ".md" := by decide
    rw [h2, strAppend_assoc ("reconftw_analysis_brief_" ++ ts) "." "md", h3]
  · apply strExt
    have hsplit : ts.data = ts.data.take 8 ++ ts.data.drop 8 := (List.take_append_drop 8 ts.data).symm
    have hdrop : ts.data.drop 8 = '_' :: ts.data.drop 9 := by
      have h4 : ts.data.drop 8 = (ts.data.drop 8).take 1 ++ (ts.data.drop 8).drop 1 :=
        (List.take_append_drop 1 (ts.data.drop 8)).symm
      rw [hu, List.drop_drop] at h4
      exact h4
    calc ts.data = ts.data.take 8 ++ ts.data.drop 8 := hsplit
      _ = ts.data.take 8 ++ ('_' :: ts.data.drop 9) := by rw [hdrop]
      _ = ((⟨ts.data.take 8⟩ : String) ++ "_" ++ (⟨ts.data.drop 9⟩ : String)).data := by
            simp [strData_append]
  · simp [List.length_take, hlen]
  · simp [List.length_drop, hlen]
  · refine ⟨mdMeta model_name "brief" ts ++ mdSections results, ?_⟩
    have h5 : (save_results results output_dir model_name "md" "brief" ts).snd
        = mdHeader model_name "brief" ts ++ mdSections results := rfl
    rw [h5, mdHeader, strAppend_assoc]

/-- Witness for `c9_filename_and_heading` at a concrete timestamp. -/
theorem c9_filename_and_heading_witness :
    validTimestamp "20250101_120000" = true ∧
    ((save_results [] "out" "m" "md" "brief" "20250101_120000").fst
      = joinPath "out" ("reconftw_analysis_brief_" ++ "20250101_120000" ++ ".md") ∧
    (∃ date time, ("20250101_120000" : String) = date ++ "_" ++ time ∧
      date.data.length = 8 ∧ date.data.all Char.isDigit = true ∧
      time.data.length = 6 ∧ time.data.all Char.isDigit = true) ∧
    (∃ rest, (save_results [] "out" "m" "md" "brief" "20250101_120000").snd
      = "# ReconFTW-AI Analysis (Gemini)\n\n" ++ rest)) :=
  ⟨by decide, c9_filename_and_heading [] "out" "m" "20250101_120000" (by decide)⟩

/-! ### Orchestrator lemmas (C3, C4, C8) -/

lemma process_category_ok (svc : GenService) (category data model_name report_type : String)
    (bp : Prompts) (hwf : wfTemplate (resolveTemplate bp report_type category) = true) :
    ∃ r, (process_category svc category data model_name report_type bp).fst = .ok r := by
  unfold process_category
  by_cases hc : ((data == "") || strContains data "[Error]") = true
  · simp [hc]
  · obtain ⟨p, hp⟩ := wf_formatTemplate_ok _ data hwf
    rcases hg : svc.generate model_name p with e | t
    · exact ⟨"[Error] Failed to process " ++ category ++ " with Gemini: " ++ e,
        by simp [hc, hp, hg]⟩
    · exact ⟨t, by simp [hc, hp, hg]⟩

lemma phase1_lookup (results_dir : String) (fs : String → DirState) :
    ∀ (order1 : List String) (cat : String), cat ∈ order1 →
      (phase1 results_dir fs order1).lookup cat
        = some (read_files cat results_dir (fs cat)) := by
  intro order1
  induction order1 with
  | nil => intro cat h; cases h
  | cons x rest ih =>
      intro cat h
      by_cases hx : cat = x
      · subst hx; simp [phase1, List.lookup]
      · have hbeq : (cat == x) = false := by simp [hx]
        have hm : cat ∈ rest := by
          rcases List.mem_cons.mp h with h1 | h1
          · exact absurd h1 hx
          · exact h1
        simpa [phase1, List.lookup, hbeq] using ih cat hm

lemma phase2_ok (svc : GenService) (results_dir model_name report_type : String)
    (bp : Prompts) (fs : String → DirState) (order1 : List String)
    (hwf : ∀ cat, wfTemplate (resolveTemplate bp report_type cat) = true) :
    ∀ order2 : List String, (∀ c ∈ order2, c ∈ order1) →
      ∃ res, phase2 svc (phase1 results_dir fs order1) model_name report_type bp order2
          = .ok res ∧ res.map Prod.fst = order2 := by
  intro order2
  induction order2 with
  | nil => intro _; exact ⟨[], rfl, rfl⟩
  | cons c rest ih =>
      intro hsub
      have hc1 : c ∈ order1 := hsub c (List.mem_cons_self c rest)
      have hlk := phase1_lookup results_dir fs order1 c hc1
      obtain ⟨r, hr⟩ := process_category_ok svc c (read_files c results_dir (fs c))
        model_name report_type bp (hwf c)
      obtain ⟨res, hres, hmap⟩ := ih (fun x hx => hsub x (List.mem_cons_of_mem c hx))
      refine ⟨(c, r) :: res, ?_, by simp [hmap]⟩
      unfold phase2
      rw [hlk]
      simp [hr, hres, Except.map]

lemma all_data_eq (results_dir : String) (fs : String → DirState) (order1 : List String) :
    "\n\n".intercalate
        ((phase1 results_dir fs order1).map (fun kv => pyUpper kv.fst ++ ":\n" ++ kv.snd))
      = overview_input results_dir fs order1 := by
  simp [phase1, overview_input, List.map_map]
  rfl

lemma analyze_ok (svc : GenService) (results_dir model_name report_type : String)
    (bp : Prompts) (fs : String → DirState) (order1 order2 : List String)
    (hwf : ∀ cat, wfTemplate (resolveTemplate bp report_type cat) = true)
    (h21 : ∀ c ∈ order2, c ∈ order1) :
    ∃ res r,
      phase2 svc (phase1 results_dir fs order1) model_name report_type bp order2
        = .ok res ∧
      res.map Prod.fst = order2 ∧
      (process_category svc "overview" (overview_input results_dir fs order1)
        model_name report_type bp).fst = .ok r ∧
      analyze_reconftw_results svc results_dir model_name report_type bp fs order1 order2
        = .ok (res ++ [("overview", r)]) := by
  obtain ⟨res, hres, hmap⟩ :=
    phase2_ok svc results_dir model_name report_type bp fs order1 hwf order2 h21
  obtain ⟨r, hr⟩ := process_category_ok svc "overview"
    (overview_input results_dir fs order1) model_name report_type bp (hwf "overview")
  refine ⟨res, r, hres, hmap, hr, ?_⟩
  simp only [analyze_reconftw_results, hres, all_data_eq, hr]

lemma wf_resolve_empty (report_type cat : String) :
    wfTemplate (resolveTemplate [] report_type cat) = true := by
  have h : resolveTemplate [] report_type cat = defaultTemplate := rfl
  rw [h]; decide

/-- C3: for every filesystem state, service behaviour and completion
orders, provided the prompt templates are well formed (the data model of
the catalog: exactly one data slot per template) the orchestrator never
raises: it returns a report with exactly one section per category plus the
`overview` section. The `Nodup` and `overview`-free hypotheses state that
the completion orders range over the distinct four categories, the regime
in which an association list models the Python dicts exactly. -/
theorem c3_report_sections (svc : GenService) (results_dir model_name report_type : String)
    (bp : Prompts) (fs : String → DirState) (order1 order2 : List String)
    (hwf : ∀ cat, wfTemplate (resolveTemplate bp report_type cat) = true)
    (hperm : order2.Perm order1)
    (_hnd : order1.Nodup) (_hov : "overview" ∉ order1) :
    ∃ res, analyze_reconftw_results svc results_dir model_name report_type bp fs order1 order2
        = .ok res ∧ res.length = order1.length + 1 := by
  obtain ⟨res, r, _, hmap, _, hana⟩ := analyze_ok svc results_dir model_name report_type bp fs
    order1 order2 hwf (fun c hc => hperm.mem_iff.mp hc)
  refine ⟨res ++ [("overview", r)], hana, ?_⟩
  have hlen : res.length = order2.length := by
    rw [← hmap, List.length_map]
  simp [hlen, hperm.length_eq]

/-- Witness for `c3_report_sections` on a run over the four categories
with every category directory absent. -/
theorem c3_report_sections_witness :
    (∀ cat, wfTemplate (resolveTemplate [] "executive" cat) = true) ∧
    CATEGORIES.Perm CATEGORIES ∧ CATEGORIES.Nodup ∧ "overview" ∉ CATEGORIES ∧
    ∃ res, analyze_reconftw_results ⟨fun _ _ => .ok "A"⟩ "r" "m" "executive" []
        (fun _ => ⟨false, []⟩) CATEGORIES CATEGORIES = .ok res ∧
      res.length = CATEGORIES.length + 1 :=
  ⟨fun cat => wf_resolve_empty "executive" cat, List.Perm.refl _, by decide, by decide,
   c3_report_sections ⟨fun _ _ => .ok "A"⟩ "r" "m" "executive" [] (fun _ => ⟨false, []⟩)
     CATEGORIES CATEGORIES (fun cat => wf_resolve_empty "executive" cat) (List.Perm.refl _) (by decide) (by decide)⟩

/-- C4 counterexample: a legitimate phase-1 completion order (a
permutation of the categories) under which the text handed to the
synthesis call differs from the fixed-category-order concatenation the
specification describes: the blocks follow dict insertion order, which is
completion order. -/
theorem c4_counterexample :
    (["subdomains", "osint", "hosts", "webs"] : List String).Perm CATEGORIES ∧
    overview_input "r" (fun _ => ⟨false, []⟩) ["subdomains", "osint", "hosts", "webs"]
      ≠ overview_input_spec "r" (fun _ => ⟨false, []⟩) := by
  decide

/-- C4 (amended): the text handed to the synthesis (`overview`) call is
exactly the concatenation of the categories' raw ingested data — the
`read_files` outputs, not the per-category analysis results — each block
labeled by the uppercased category name followed by a colon and newline,
blocks joined by a blank line, in the phase-1 completion order (the raw
dict's insertion order), not in the fixed declared category order. -/
theorem c4_overview_raw_completion_order (svc : GenService)
    (results_dir model_name report_type : String) (bp : Prompts)
    (fs : String → DirState) (order1 order2 : List String)
    (hwf : ∀ cat, wfTemplate (resolveTemplate bp report_type cat) = true)
    (h21 : ∀ c ∈ order2, c ∈ order1) :
    ∃ res r,
      (process_category svc "overview" (overview_input results_dir fs order1)
          model_name report_type bp).fst = .ok r ∧
      analyze_reconftw_results svc results_dir model_name report_type bp fs order1 order2
        = .ok (res ++ [("overview", r)]) ∧
      overview_input results_dir fs order1
        = "\n\n".intercalate (order1.map (fun cat =>
            pyUpper cat ++ ":\n" ++ read_files cat results_dir (fs cat))) := by
  obtain ⟨res, r, _, _, hr, hana⟩ := analyze_ok svc results_dir model_name report_type bp fs
    order1 order2 hwf h21
  exact ⟨res, r, hr, hana, rfl⟩

/-- Witness for `c4_overview_raw_completion_order` on a concrete run. -/
theorem c4_overview_raw_completion_order_witness :
    (∀ cat, wfTemplate (resolveTemplate [] "executive" cat) = true) ∧
    (∀ c ∈ CATEGORIES, c ∈ CATEGORIES) ∧
    ∃ res r,
      (process_category ⟨fun _ _ => .ok "A"⟩ "overview"
          (overview_input "r" (fun _ => ⟨false, []⟩) CATEGORIES) "m" "executive" []).fst
        = .ok r ∧
      analyze_reconftw_results ⟨fun _ _ => .ok "A"⟩ "r" "m" "executive" []
          (fun _ => ⟨false, []⟩) CATEGORIES CATEGORIES = .ok (res ++ [("overview", r)]) ∧
      overview_input "r" (fun _ => ⟨false, []⟩) CATEGORIES
        = "\n\n".intercalate (CATEGORIES.map (fun cat =>
            pyUpper cat ++ ":\n" ++ read_files cat "r" ((fun _ => (⟨false, []⟩ : DirState)) cat))) :=
  ⟨fun cat => wf_resolve_empty "executive" cat, fun _ hc => hc,
   c4_overview_raw_completion_order ⟨fun _ _ => .ok "A"⟩ "r" "m" "executive" []
     (fun _ => ⟨false, []⟩) CATEGORIES CATEGORIES (fun cat => wf_resolve_empty "executive" cat) (fun _ hc => hc)⟩

/-- C8 counterexample: a run whose phase-2 completion order is not the
declared category order yields a report whose section sequence (rendered
in this order by `save_results`) differs from the fixed declared order;
and rendering depends on entry order. -/
theorem c8_counterexample :
    (analyze_reconftw_results ⟨fun _ _ => .ok "A"⟩ "r" "m" "executive" []
        (fun _ => ⟨false, []⟩) CATEGORIES ["webs", "hosts", "subdomains", "osint"]).map
      (List.map Prod.fst)
      = .ok ["webs", "hosts", "subdomains", "osint", "overview"] ∧
    (["webs", "hosts", "subdomains", "osint"] : List String).Perm CATEGORIES ∧
    ["webs", "hosts", "subdomains", "osint", "overview"] ≠ CATEGORIES ++ ["overview"] ∧
    mdSections [("webs", "w"), ("osint", "o")] ≠ mdSections [("osint", "o"), ("webs", "w")] := by
  decide

/-- C8 (amended): the report handed to `save_results` lists its sections
in the phase-2 completion order (the results dict's insertion order) with
`overview` always last — not in the fixed declared category order — and
`save_results` renders, in both formats, a header followed by one section
per report entry in exactly that list order, each labeled by its
uppercased name. -/
theorem c8_section_order (svc : GenService)
    (results_dir model_name report_type output_dir ts : String) (bp : Prompts)
    (fs : String → DirState) (order1 order2 : List String)
    (res : List (String × String))
    (hwf : ∀ cat, wfTemplate (resolveTemplate bp report_type cat) = true)
    (hperm : order2.Perm order1)
    (hres : analyze_reconftw_results svc results_dir model_name report_type bp fs order1 order2
        = .ok res) :
    res.map Prod.fst = order2 ++ ["overview"] ∧
    (save_results res output_dir model_name "md" report_type ts).snd
      = mdHeader model_name report_type ts ++ mdSections res ∧
    (save_results res output_dir model_name "txt" report_type ts).snd
      = txtHeader model_name report_type ts ++ txtSections res := by
  obtain ⟨res0, r, _, hmap, _, hana⟩ := analyze_ok svc results_dir model_name report_type bp fs
    order1 order2 hwf (fun c hc => hperm.mem_iff.mp hc)
  rw [hres] at hana
  have heq : res = res0 ++ [("overview", r)] := Except.ok.inj hana
  refine ⟨?_, rfl, rfl⟩
  rw [heq]
  simp [hmap]

/-- Witness for `c8_section_order` on a concrete run. -/
theorem c8_section_order_witness :
    (∀ cat, wfTemplate (resolveTemplate [] "executive" cat) = true) ∧
    CATEGORIES.Perm CATEGORIES ∧
    analyze_reconftw_results ⟨fun _ _ => .ok "A"⟩ "r" "m" "executive" []
        (fun _ => ⟨false, []⟩) CATEGORIES CATEGORIES
      = .ok [("osint", "[Error] No valid data available for osint."),
             ("subdomains", "[Error] No valid data available for subdomains."),
             ("hosts", "[Error] No valid data available for hosts."),
             ("webs", "[Error] No valid data available for webs."),
             ("overview", "[Error] No valid data available for overview.")] ∧
    ([("osint", "[Error] No valid data available for osint."),
      ("subdomains", "[Error] No valid data available for subdomains."),
      ("hosts", "[Error] No valid data available for hosts."),
      ("webs", "[Error] No valid data available for webs."),
      ("overview", "[Error] No valid data available for overview.")].map Prod.fst
        = CATEGORIES ++ ["overview"] ∧
    (save_results [("osint", "[Error] No valid data available for osint."),
      ("subdomains", "[Error] No valid data available for subdomains."),
      ("hosts", "[Error] No valid data available for hosts."),
      ("webs", "[Error] No valid data available for webs."),
      ("overview", "[Error] No valid data available for overview.")]
        "out" "m" "md" "executive" "20250101_120000").snd
      = mdHeader "m" "executive" "20250101_120000"
        ++ mdSections [("osint", "[Error] No valid data available for osint."),
             ("subdomains", "[Error] No valid data available for subdomains."),
             ("hosts", "[Error] No valid data available for hosts."),
             ("webs", "[Error] No valid data available for webs."),
             ("overview", "[Error] No valid data available for overview.")] ∧
    (save_results [("osint", "[Error] No valid data available for osint."),
      ("subdomains", "[Error] No valid data available for subdomains."),
      ("hosts", "[Error] No valid data available for hosts."),
      ("webs", "[Error] No valid data available for webs."),
      ("overview", "[Error] No valid data available for overview.")]
        "out" "m" "txt" "executive" "20250101_120000").snd
      = txtHeader "m" "executive" "20250101_120000"
        ++ txtSections [("osint", "[Error] No valid data available for osint."),
             ("subdomains", "[Error] No valid data available for subdomains."),
             ("hosts", "[Error] No valid data available for hosts."),
             ("webs", "[Error] No valid data available for webs."),
             ("overview", "[Error] No valid data available for overview.")]) :=
  ⟨fun cat => wf_resolve_empty "executive" cat, List.Perm.refl _, by decide,
   c8_section_order ⟨fun _ _ => .ok "A"⟩ "r" "m" "executive" "out" "20250101_120000" []
     (fun _ => ⟨false, []⟩) CATEGORIES CATEGORIES
     [("osint", "[Error] No valid data available for osint."),
      ("subdomains", "[Error] No valid data available for subdomains."),
      ("hosts", "[Error] No valid data available for hosts."),
      ("webs", "[Error] No valid data available for webs."),
      ("overview", "[Error] No valid data available for overview.")]
     (fun cat => wf_resolve_empty "executive" cat) (List.Perm.refl _) (by decide)⟩

/-! ### Ingestor partial-failure machinery (C6) -/

lemma dropWhile_sub {p : Char → Bool} {N : List Char} (hne : N ≠ []) (hh : p N.headI = false) :
    ∀ a b : List Char, ∃ a2, (a ++ N ++ b).dropWhile p = a2 ++ N ++ b := by
  obtain ⟨c, n, rfl⟩ : ∃ c n, N = c :: n := by
    cases N with
    | nil => exact absurd rfl hne
    | cons c n => exact ⟨c, n, rfl⟩
  have hc : p c = false := hh
  intro a
  induction a with
  | nil =>
      intro b
      refine ⟨[], ?_⟩
      simp [List.dropWhile_cons, hc]
  | cons x xs ih =>
      intro b
      by_cases hx : p x = true
      · obtain ⟨a2, h2⟩ := ih b
        refine ⟨a2, ?_⟩
        simpa [List.dropWhile_cons, hx] using h2
      · refine ⟨x :: xs, ?_⟩
        simp [List.dropWhile_cons, hx]

lemma stripList_sub {N : List Char} (hne : N ≠ [])
    (hh : pyWS N.headI = false) (hl : pyWS N.reverse.headI = false)
    (a b : List Char) :
    ∃ a2 b2, stripList (a ++ N ++ b) = a2 ++ N ++ b2 := by
  obtain ⟨a2, h1⟩ := dropWhile_sub hne hh a b
  have hner : N.reverse ≠ [] := by simpa using hne
  obtain ⟨a3, h2⟩ := dropWhile_sub hner hl b.reverse a2.reverse
  refine ⟨a2, a3.reverse, ?_⟩
  unfold stripList
  rw [h1]
  have hrev : (a2 ++ N ++ b).reverse = b.reverse ++ N.reverse ++ a2.reverse := by
    simp [List.reverse_append, List.append_assoc]
  rw [hrev, h2]
  simp [List.reverse_append, List.append_assoc]

lemma pyStrip_sub (x N y : String) (hne : N.data ≠ [])
    (hh : pyWS N.data.headI = false) (hl : pyWS N.data.reverse.headI = false) :
    ∃ a b, (pyStrip (x ++ N ++ y)).data = a ++ N.data ++ b := by
  obtain ⟨a2, b2, h⟩ := stripList_sub hne hh hl x.data y.data
  refine ⟨a2, b2, ?_⟩
  have hdata : (x ++ N ++ y).data = x.data ++ N.data ++ y.data := by simp [strData_append]
  show stripList (x ++ N ++ y).data = a2 ++ N.data ++ b2
  rw [hdata, h]

lemma dropWhile_headI {p : Char → Bool} :
    ∀ l : List Char, l.dropWhile p ≠ [] → p (l.dropWhile p).headI = false := by
  intro l
  induction l with
  | nil => intro h; exact absurd rfl h
  | cons x xs ih =>
      intro h
      by_cases hx : p x = true
      · rw [List.dropWhile_cons, if_pos hx] at h ⊢
        exact ih h
      · rw [List.dropWhile_cons, if_neg hx] at h ⊢
        simpa using hx

lemma strNe_empty_mid (s N y : String) (hN : N.data ≠ []) : s ++ N ++ y ≠ "" := by
  intro h0
  have h1 : (s ++ N ++ y).data = [] := by rw [h0]
  have h2 : s.data ++ N.data ++ y.data = [] := by
    rw [← h1]; simp [strData_append]
  rcases List.append_eq_nil.mp h2 with ⟨h3, _⟩
  rcases List.append_eq_nil.mp h3 with ⟨_, h6⟩
  exact hN h6

lemma foldl_blocks_acc :
    ∀ (l : List FileEntry) (init : String),
      l.foldl (fun acc g => acc ++ fileBlock g) init
        = init ++ l.foldl (fun acc g => acc ++ fileBlock g) "" := by
  intro l
  induction l with
  | nil => intro init; rw [List.foldl_nil, List.foldl_nil, strAppend_empty]
  | cons g rest ih =>
      intro init
      simp only [List.foldl_cons]
      rw [ih (init ++ fileBlock g), ih ("" ++ fileBlock g), strEmpty_append, strAppend_assoc]

lemma foldl_blocks_split (f : FileEntry) :
    ∀ l : List FileEntry, f ∈ l →
      ∃ s t, l.foldl (fun acc g => acc ++ fileBlock g) "" = s ++ fileBlock f ++ t := by
  intro l
  induction l with
  | nil => intro h; cases h
  | cons g rest ih =>
      intro h
      rcases List.mem_cons.mp h with h1 | h1
      · subst h1
        refine ⟨"", rest.foldl (fun acc g => acc ++ fileBlock g) "", ?_⟩
        simp only [List.foldl_cons]
        exact foldl_blocks_acc rest ("" ++ fileBlock f)
      · obtain ⟨s, t, hst⟩ := ih h1
        refine ⟨("" ++ fileBlock g) ++ s, t, ?_⟩
        simp only [List.foldl_cons]
        rw [foldl_blocks_acc rest ("" ++ fileBlock g), hst]
        simp [strAppend_assoc]

lemma read_files_sub (category results_dir : String) (files : List FileEntry)
    (s N y : String) (hN : N.data ≠ [])
    (hh : pyWS N.data.headI = false) (hl : pyWS N.data.reverse.headI = false)
    (hdecomp : files.foldl (fun acc g => acc ++ fileBlock g) "" = s ++ N ++ y) :
    ∃ a b, (read_files category results_dir ⟨true, files⟩).data = a ++ N.data ++ b := by
  have hF : files.foldl (fun acc g => acc ++ fileBlock g) "" ≠ "" := by
    rw [hdecomp]; exact strNe_empty_mid s N y hN
  have hread : read_files category results_dir ⟨true, files⟩
      = pyStrip (files.foldl (fun acc g => acc ++ fileBlock g) "") := by
    show (if files.foldl (fun acc g => acc ++ fileBlock g) "" = ""
          then "[Info] No files found in " ++ joinPath results_dir category ++ "."
          else pyStrip (files.foldl (fun acc g => acc ++ fileBlock g) "")) = _
    rw [if_neg hF]
  rw [hread, hdecomp]
  exact pyStrip_sub s N y hN hh hl

/-- C6: when the category directory exists, `read_files` never raises (it
is total) and, for every file of the enumeration, the output retains that
file's block: an unreadable file (whose failure reason is nonempty and
does not end in whitespace, as `str(e)` of a real exception) contributes
its inline `[Error] Failed to read <path>: <reason>` block, a readable
file keeps its `--- <path> ---` header, and a readable file with nonempty
stripped content keeps the header together with that content — one
unreadable file never loses the rest of the category's data. -/
theorem c6_unreadable_blocks (category results_dir : String) (files : List FileEntry)
    (f : FileEntry) (hf : f ∈ files) :
    (∀ e, f.content = .error e → e ≠ "" → pyWS e.data.reverse.headI = false →
      ∃ a b, (read_files category results_dir ⟨true, files⟩).data
        = a ++ ("[Error] Failed to read " ++ f.rel ++ ": " ++ e).data ++ b) ∧
    (∀ c, f.content = .ok c →
      ∃ a b, (read_files category results_dir ⟨true, files⟩).data
        = a ++ ("--- " ++ f.rel ++ " ---").data ++ b) ∧
    (∀ c, f.content = .ok c → pyStrip c ≠ "" →
      ∃ a b, (read_files category results_dir ⟨true, files⟩).data
        = a ++ ("--- " ++ f.rel ++ " ---\n" ++ pyStrip c).data ++ b) := by
  obtain ⟨s, t, hst⟩ := foldl_blocks_split f files hf
  refine ⟨?_, ?_, ?_⟩
  · intro e hcontent he hle
    have hb : fileBlock f = ("[Error] Failed to read " ++ f.rel ++ ": " ++ e) ++ "\n" := by
      simp only [fileBlock, hcontent]
    have hdecomp : files.foldl (fun acc g => acc ++ fileBlock g) ""
        = s ++ ("[Error] Failed to read " ++ f.rel ++ ": " ++ e) ++ ("\n" ++ t) := by
      rw [hst, hb]
      simp [strAppend_assoc]
    have hrev : pyWS ("[Error] Failed to read " ++ f.rel ++ ": " ++ e).data.reverse.headI
        = false := by
      have h1 : ("[Error] Failed to read " ++ f.rel ++ ": " ++ e).data.reverse
          = e.data.reverse ++ ("[Error] Failed to read " ++ f.rel ++ ": ").data.reverse := by
        simp [strData_append, List.reverse_append]
      have hee : e.data.reverse ≠ [] := by
        simp only [ne_eq, List.reverse_eq_nil_iff]
        intro hh0
        exact he (strEmpty_iff.mpr hh0)
      rw [h1, headI_append hee]
      exact hle
    exact read_files_sub category results_dir files s _ _
      (by apply List.cons_ne_nil) rfl hrev hdecomp
  · intro c hcontent
    have hb : fileBlock f = ("--- " ++ f.rel ++ " ---") ++ ("\n" ++ pyStrip c ++ "\n") := by
      simp only [fileBlock, hcontent]
      apply strExt
      have hl : (" ---\n" : String).data = (" ---" : String).data ++ ("\n" : String).data := by
        decide
      simp [strData_append, hl, List.append_assoc]
    have hdecomp : files.foldl (fun acc g => acc ++ fileBlock g) ""
        = s ++ ("--- " ++ f.rel ++ " ---") ++ (("\n" ++ pyStrip c ++ "\n") ++ t) := by
      rw [hst, hb]
      simp [strAppend_assoc]
    have hrev : pyWS ("--- " ++ f.rel ++ " ---").data.reverse.headI = false := by
      have h1 : ("--- " ++ f.rel ++ " ---").data.reverse
          = (" ---" : String).data.reverse ++ ("--- " ++ f.rel).data.reverse := by
        simp [strData_append, List.reverse_append]
      rw [h1, headI_append (by decide)]
      decide
    exact read_files_sub category results_dir files s _ _
      (by apply List.cons_ne_nil) rfl hrev hdecomp
  · intro c hcontent hstrip
    have hb : fileBlock f = ("--- " ++ f.rel ++ " ---\n" ++ pyStrip c) ++ "\n" := by
      simp only [fileBlock, hcontent]
    have hdecomp : files.foldl (fun acc g => acc ++ fileBlock g) ""
        = s ++ ("--- " ++ f.rel ++ " ---\n" ++ pyStrip c) ++ ("\n" ++ t) := by
      rw [hst, hb]
      simp [strAppend_assoc]
    have hpne : (pyStrip c).data.reverse ≠ [] := by
      simp only [ne_eq, List.reverse_eq_nil_iff]
      intro hh0
      exact hstrip (strEmpty_iff.mpr hh0)
    have hrev : pyWS ("--- " ++ f.rel ++ " ---\n" ++ pyStrip c).data.reverse.headI = false := by
      have h1 : ("--- " ++ f.rel ++ " ---\n" ++ pyStrip c).data.reverse
          = (pyStrip c).data.reverse ++ ("--- " ++ f.rel ++ " ---\n").data.reverse := by
        simp [strData_append, List.reverse_append]
      rw [h1, headI_append hpne]
      have h2 : (pyStrip c).data.reverse
          = List.dropWhile pyWS ((c.data.dropWhile pyWS).reverse) := by
        show (stripList c.data).reverse = _
        unfold stripList
        rw [List.reverse_reverse]
      rw [h2]
      apply dropWhile_headI
      rw [← h2]
      exact hpne
    exact read_files_sub category results_dir files s _ _
      (by apply List.cons_ne_nil) rfl hrev hdecomp

/-- Witness for `c6_unreadable_blocks`: one unreadable file amid one
readable file; the output keeps both the inline error block and the
readable file's block. -/
theorem c6_unreadable_blocks_witness :
    ((⟨"osint/b.txt", .error "boom"⟩ : FileEntry)
        ∈ [(⟨"osint/a.txt", .ok " alpha "⟩ : FileEntry), ⟨"osint/b.txt", .error "boom"⟩]) ∧
    (∃ a b, (read_files "osint" "r"
          ⟨true, [⟨"osint/a.txt", .ok " alpha "⟩, ⟨"osint/b.txt", .error "boom"⟩]⟩).data
        = a ++ ("[Error] Failed to read " ++ "osint/b.txt" ++ ": " ++ "boom").data ++ b) ∧
    (∃ a b, (read_files "osint" "r"
          ⟨true, [⟨"osint/a.txt", .ok " alpha "⟩, ⟨"osint/b.txt", .error "boom"⟩]⟩).data
        = a ++ ("--- " ++ "osint/a.txt" ++ " ---\n" ++ pyStrip " alpha ").data ++ b) :=
  ⟨by decide,
   (c6_unreadable_blocks "osint" "r"
       [⟨"osint/a.txt", .ok " alpha "⟩, ⟨"osint/b.txt", .error "boom"⟩]
       ⟨"osint/b.txt", .error "boom"⟩ (by decide)).1 "boom" rfl (by decide) (by decide),
   (c6_unreadable_blocks "osint" "r"
       [⟨"osint/a.txt", .ok " alpha "⟩, ⟨"osint/b.txt", .error "boom"⟩]
       ⟨"osint/a.txt", .ok " alpha "⟩ (by decide)).2.2 " alpha " rfl (by decide)⟩
